import Mathlib

/-!
Verification of the order-placement and tenant-isolation engine of a
multi-tenant e-commerce backend (FastAPI + SQLAlchemy).

The embedding translates the handlers in `app/api/v1/orders.py` and
`app/api/v1/products.py`, the guard `check_tenant_access` in
`app/core/dependencies.py`, and the Pydantic schemas in
`app/schemas/order.py` / `app/schemas/product.py` into pure Lean
functions over an explicit database state.

Conventions of the embedding:
* Machine integers are `Nat` (ids) or `Int` (quantities, stock).
* `Numeric(10,2)` money values are `Int`s denoting fixed-point amounts
  in cents; the handlers only copy, multiply and add them.
* A SQLAlchemy session with pending changes is made explicit: each
  handler is a function `DB → ... → Except ApiError α × DB` whose second
  component is the database state after the handler's commits, including
  the states produced by the error paths (the code commits inside error
  branches, so an error can still change the database).
* The authentication dependency `get_current_active_user` is external to
  the core: handlers are modelled as invoked with an already
  authenticated, active `User`.  The role dependencies (`require_staff`,
  `require_store_owner`), which FastAPI runs before the handler body, are
  translated as the first checks of each handler.
* Python truthiness on an optional integer column (`if not x`,
  `if x and y`) is explicit: `none` and `some 0` are falsy.
* `uuid.uuid4()` used for the order number is nondeterministic; the
  handler takes the generated order number as an explicit argument.
* The store is the shipped configuration: SQLite
  (`DATABASE_URL = "sqlite:///./ecommerce.db"`, `app/core/config.py`)
  behind `sessionmaker(autocommit=False, autoflush=False)`
  (`app/core/database.py` line 27), with no `PRAGMA foreign_keys`
  listener, so foreign keys are not enforced.  Primary keys are plain
  `Integer primary_key` rowid columns without `AUTOINCREMENT`, so an
  INSERT is assigned `max(rowid) + 1` over the rows currently in the
  table — after the largest row is deleted, its id is reused.  Row ids
  in the embedding are therefore computed from the table contents
  (`newOrderId`, `firstItemId`, `newCustomerId`), not from monotone
  counters.
-/

namespace Shop

/-- Source `app/models/user.py` — `UserRole`. -/
inductive UserRole where
  | STORE_OWNER
  | STAFF
  | CUSTOMER
deriving DecidableEq, Repr

/-- Source `app/models/order.py` — `OrderStatus`. -/
inductive OrderStatus where
  | PENDING
  | CONFIRMED
  | PROCESSING
  | SHIPPED
  | DELIVERED
  | CANCELLED
deriving DecidableEq, Repr

/-- Source `OrderStatus(new_status)` on a string, as used by `update_order_status`
(the enum is a `str` enum whose values are the constructor names);
`none` models the `ValueError` branch. -/
def OrderStatus.fromString (s : String) : Option OrderStatus :=
  if s = "PENDING" then some .PENDING
  else if s = "CONFIRMED" then some .CONFIRMED
  else if s = "PROCESSING" then some .PROCESSING
  else if s = "SHIPPED" then some .SHIPPED
  else if s = "DELIVERED" then some .DELIVERED
  else if s = "CANCELLED" then some .CANCELLED
  else none

/-- Source `app/models/user.py` — the columns of `User` the core reads.
`vendor_id` is nullable (`none` for platform-level superusers). -/
structure User where
  id : Nat
  username : String
  email : String
  first_name : String
  last_name : String
  vendor_id : Option Nat
  role : UserRole
  phone_number : Option String
deriving DecidableEq, Repr

/-- Source `app/models/product.py` — the columns of `Product` the core reads.
`price` is the `Numeric(10,2)` price in cents. -/
structure Product where
  id : Nat
  vendor_id : Nat
  name : String
  price : Int
  stock_quantity : Int
  is_active : Bool
deriving DecidableEq, Repr

/-- Source `app/models/customer.py` — the columns of `Customer` the core reads. -/
structure Customer where
  id : Nat
  vendor_id : Nat
  user_id : Nat
  full_name : String
  email : String
  phone_number : String
deriving DecidableEq, Repr

/-- Source `app/models/order.py` — the columns of `Order` the core reads.
`assigned_staff_id` is nullable. -/
structure Order where
  id : Nat
  vendor_id : Nat
  customer_id : Nat
  order_number : String
  status : OrderStatus
  total_amount : Int
  shipping_address : String
  notes : Option String
  assigned_staff_id : Option Nat
deriving DecidableEq, Repr

/-- Source `app/models/order.py` — the columns of `OrderItem` the core reads. -/
structure OrderItem where
  id : Nat
  order_id : Nat
  product_id : Nat
  quantity : Int
  unit_price : Int
  subtotal : Int
deriving DecidableEq, Repr

/-- The relational store: one list per table.  Ids of inserted rows are
computed the way SQLite assigns rowids — `max(rowid) + 1` over the rows
currently in the table (no `AUTOINCREMENT`, so deleted maximal ids are
reused). -/
structure DB where
  users : List User
  products : List Product
  customers : List Customer
  orders : List Order
  order_items : List OrderItem
deriving DecidableEq, Repr

/-- SQLite rowid allocation: one more than the largest id present
(`max(rowid) + 1`), i.e. `1` on an empty table. -/
def nextRowId (ids : List Nat) : Nat := ids.foldr max 0 + 1

/-- The id SQLite assigns to a newly inserted `Customer` row. -/
def newCustomerId (db : DB) : Nat := nextRowId (db.customers.map (fun c => c.id))

/-- The id SQLite assigns to a newly inserted `Order` row. -/
def newOrderId (db : DB) : Nat := nextRowId (db.orders.map (fun o => o.id))

/-- The id SQLite assigns to the first `OrderItem` row flushed by a
request (subsequent rows of the same flush continue sequentially). -/
def firstItemId (db : DB) : Nat := nextRowId (db.order_items.map (fun i => i.id))

/-- The error responses the embedded handlers raise, keyed by HTTP status
code and the `detail` string of the `HTTPException`. -/
inductive ApiError where
  | notFound (detail : String)
  | forbidden (detail : String)
  | badRequest (detail : String)
  | unprocessable
deriving DecidableEq, Repr

/-- HTTP status code of an error response.  `unprocessable` is FastAPI's
request-validation rejection (a failed `Query(..., ge=0)` bound). -/
def ApiError.statusCode : ApiError → Nat
  | .notFound _ => 404
  | .forbidden _ => 403
  | .badRequest _ => 400
  | .unprocessable => 422

/-- Python truthiness of a nullable integer column: `None` and `0` are
falsy. -/
def truthy : Option Nat → Bool
  | none => false
  | some v => v != 0

/-- Source `app/core/dependencies.py` `check_tenant_access` resolves the owning
vendor id by a `hasattr` chain.  An entity is abstracted by what that
chain can see: `vendorIdAttr = some v` means the object has a
`vendor_id` attribute holding `v` (itself possibly null); `none` means
the attribute is absent and resolution falls through to the referenced
`customer` / `user` (whose `vendor_id`, when the reference is present,
is the corresponding field here). -/
structure Entity where
  vendorIdAttr : Option (Option Nat)
  customerVendorId : Option (Option Nat)
  userVendorId : Option (Option Nat)
deriving DecidableEq, Repr

/-- The `hasattr` chain of `check_tenant_access`: a present `vendor_id`
attribute wins even when its value is null; otherwise the referenced
`customer`, then the referenced `user`. -/
def resolveVendorId (e : Entity) : Option Nat :=
  match e.vendorIdAttr with
  | some v => v
  | none =>
    match e.customerVendorId with
    | some v => v
    | none =>
      match e.userVendorId with
      | some v => v
      | none => none

/-- Source `app/core/dependencies.py` — `check_tenant_access(obj, current_user)`.
`if vendor_id and current_user.vendor_id: return current_user.vendor_id
== vendor_id` else `return False`. -/
def check_tenant_access (e : Entity) (u : User) : Bool :=
  let vendor_id := resolveVendorId e
  if truthy vendor_id && truthy u.vendor_id then
    u.vendor_id == vendor_id
  else
    false

/-- The `Entity` view of an `Order` row: it has a `vendor_id` attribute
(non-null column), so the transitive branches of the chain are never
consulted. -/
def Order.entity (o : Order) : Entity :=
  ⟨some (some o.vendor_id), none, none⟩

/-- The `Entity` view of a `Product` row. -/
def Product.entity (p : Product) : Entity :=
  ⟨some (some p.vendor_id), none, none⟩

/-- Source `app/schemas/order.py` — `OrderItemCreate`: the client supplies
`product_id`, `quantity` and `unit_price`, none of them constrained. -/
structure OrderItemCreate where
  product_id : Nat
  quantity : Int
  unit_price : Int
deriving DecidableEq, Repr

/-- Source `app/schemas/order.py` — `OrderCreate` (`status` defaults to
`PENDING` at the schema layer). -/
structure OrderCreate where
  shipping_address : String
  notes : Option String
  status : OrderStatus
  items : List OrderItemCreate
deriving DecidableEq, Repr

/-- Source `app/schemas/order.py` — `OrderUpdate` with
`model_dump(exclude_unset=True)` semantics: an outer `none` means the
field was not sent; for the nullable columns (`notes`,
`assigned_staff_id`) an inner `none` is an explicit null. -/
structure OrderUpdate where
  status : Option OrderStatus
  shipping_address : Option String
  notes : Option (Option String)
  assigned_staff_id : Option (Option Nat)
deriving DecidableEq, Repr

/-- The `setattr` loop of `update_order` over the fields present in the
request. -/
def applyOrderUpdate (o : Order) (upd : OrderUpdate) : Order :=
  let o1 := match upd.status with
    | some s => { o with status := s }
    | none => o
  let o2 := match upd.shipping_address with
    | some a => { o1 with shipping_address := a }
    | none => o1
  let o3 := match upd.notes with
    | some n => { o2 with notes := n }
    | none => o2
  match upd.assigned_staff_id with
  | some a => { o3 with assigned_staff_id := a }
  | none => o3

/-- Stock decrement applied to the session's view of the products table:
`product.stock_quantity -= quantity` on the row with this id. -/
def decrementStock (ps : List Product) (pid : Nat) (q : Int) : List Product :=
  ps.map fun p =>
    if p.id = pid then { p with stock_quantity := p.stock_quantity - q } else p

/-- The per-item loop of `create_order` (`orders.py` lines 130-179).
`prods` is the session's view of the products table (earlier decrements
of the same request are visible to later fetches through the identity
map).  On the first failing item it returns the error together with the
`OrderItem` rows already recorded for earlier items and the session view
of the products at that point — the failure path's `db.commit()` flushes
both the pending item inserts and the pending decrements.  On success it
returns the recorded items and the final view. -/
def orderItemsLoop (vendorId : Nat) (orderId : Nat) :
    List OrderItemCreate → List Product → Nat →
    Except (ApiError × List OrderItem × List Product)
      (List OrderItem × List Product × Nat)
  | [], prods, nextItemId => .ok ([], prods, nextItemId)
  | it :: rest, prods, nextItemId =>
    match prods.find? (fun p => p.id == it.product_id) with
    | none =>
      .error (.notFound ("Product " ++ toString it.product_id ++ " not found"),
        [], prods)
    | some p =>
      if p.vendor_id ≠ vendorId then
        .error (.forbidden ("Product " ++ p.name ++ " does not belong to this vendor"),
          [], prods)
      else if ¬ p.is_active then
        .error (.badRequest ("Product " ++ p.name ++ " is not active"), [], prods)
      else if p.stock_quantity < it.quantity then
        .error (.badRequest ("Insufficient stock for " ++ p.name), [], prods)
      else
        let prods1 := decrementStock prods p.id it.quantity
        let item : OrderItem :=
          { id := nextItemId
            order_id := orderId
            product_id := p.id
            quantity := it.quantity
            unit_price := it.unit_price
            subtotal := it.unit_price * it.quantity }
        match orderItemsLoop vendorId orderId rest prods1 (nextItemId + 1) with
        | .error (e, items, prods2) => .error (e, item :: items, prods2)
        | .ok (items, prods2, nid) => .ok (item :: items, prods2, nid)

/-- Source `orders.py` `create_order` (lines 74-186).  `orderNumber` stands for
the `"ORD-" + uuid` string generated at line 111.  The mid-function
commits of the source are reflected in the returned `DB`:
the get-or-create of the `Customer` is committed before the items are
examined (so it persists even when the order later fails); the `Order`
row is inserted and committed before the loop with the column-default
total of `0` (its id is `max(rowid)+1` over the orders table, so a
previously deleted maximal id is reused); a failing item runs
`db.delete(order); db.commit()`.  On that failure path the
`delete-orphan` cascade loads `order.items` from the database — the
session has `autoflush=False` (`app/core/database.py` line 27), so the
pending `OrderItem` inserts (which were given `order_id=order.id`
directly, never appended to the relationship) are not flushed first and
the SELECT sees no children.  The commit's unit of work then inserts
the pending items (saves precede deletes) and deletes the order; SQLite
foreign keys are not enforced (no `PRAGMA foreign_keys`), so the
earlier items persist as orphaned rows referencing the deleted order
id, and the pending stock decrements are flushed as well.  Item rowids
are assigned at flush time, sequentially from `max(rowid)+1` over the
order-items table. -/
def create_order (db : DB) (u : User) (orderNumber : String) (req : OrderCreate) :
    Except ApiError Order × DB :=
  match u.vendor_id with
  | none => (.error (.forbidden "User must be associated with a vendor"), db)
  | some v =>
    if v = 0 then (.error (.forbidden "User must be associated with a vendor"), db)
    else
      let (customer, db1) :=
        match db.customers.find? (fun c => c.vendor_id == v && c.user_id == u.id) with
        | some c => (c, db)
        | none =>
          let joined := (u.first_name ++ " " ++ u.last_name).trim
          let fullName := if joined = "" then u.username else joined
          let c : Customer :=
            { id := newCustomerId db
              vendor_id := v
              user_id := u.id
              full_name := fullName
              email := u.email
              phone_number := u.phone_number.getD "" }
          (c, { db with customers := db.customers ++ [c] })
      let oid := newOrderId db
      let order0 : Order :=
        { id := oid
          vendor_id := v
          customer_id := customer.id
          order_number := orderNumber
          status := req.status
          total_amount := 0
          shipping_address := req.shipping_address
          notes := req.notes
          assigned_staff_id := none }
      let db2 := { db1 with orders := db1.orders ++ [order0] }
      match orderItemsLoop v oid req.items db2.products (firstItemId db) with
      | .error (e, items, prods) =>
        (.error e,
         { db2 with
             orders := db2.orders.filter (fun o => o.id ≠ oid)
             order_items := db2.order_items ++ items
             products := prods })
      | .ok (items, prods, _) =>
        let total := (items.map (fun i => i.subtotal)).sum
        let order1 := { order0 with total_amount := total }
        (.ok order1,
         { db2 with
             orders := db2.orders.map (fun o => if o.id = oid then order1 else o)
             order_items := db2.order_items ++ items
             products := prods })

/-- Source `app/core/dependencies.py` `require_staff`: passes for
`STORE_OWNER` and `STAFF`, raises 403 otherwise.  FastAPI runs it
before the handler body. -/
def requireStaffOk (u : User) : Bool :=
  u.role == UserRole.STORE_OWNER || u.role == UserRole.STAFF

/-- Source `orders.py` `get_order` (lines 189-213): fetch by id (404 when
absent), then `check_tenant_access` (403), then for a CUSTOMER caller
the own-order check via their `Customer` row. -/
def get_order (db : DB) (u : User) (order_id : Nat) : Except ApiError Order × DB :=
  match db.orders.find? (fun o => o.id == order_id) with
  | none => (.error (.notFound "Order not found"), db)
  | some o =>
    if ¬ check_tenant_access o.entity u then
      (.error (.forbidden "Access denied"), db)
    else if u.role = UserRole.CUSTOMER then
      match db.customers.find? (fun c =>
          c.user_id == u.id && some c.vendor_id == u.vendor_id) with
      | none => (.error (.forbidden "Access denied"), db)
      | some c =>
        if o.customer_id ≠ c.id then (.error (.forbidden "Access denied"), db)
        else (.ok o, db)
    else (.ok o, db)

/-- Source `orders.py` `update_order` (lines 216-249): `require_staff`
dependency, fetch (404), tenant check (403), the STAFF
assigned-to-another check, then the `setattr` loop over the fields sent
in the `OrderUpdate` body. -/
def update_order (db : DB) (u : User) (order_id : Nat) (upd : OrderUpdate) :
    Except ApiError Order × DB :=
  if ¬ requireStaffOk u then
    (.error (.forbidden "Staff or store owner access required"), db)
  else
    match db.orders.find? (fun o => o.id == order_id) with
    | none => (.error (.notFound "Order not found"), db)
    | some o =>
      if ¬ check_tenant_access o.entity u then
        (.error (.forbidden "Access denied"), db)
      else if u.role = UserRole.STAFF
          ∧ truthy o.assigned_staff_id
          ∧ o.assigned_staff_id ≠ some u.id then
        (.error (.forbidden "Order is assigned to another staff member"), db)
      else
        let o1 := applyOrderUpdate o upd
        (.ok o1,
         { db with orders := db.orders.map (fun x => if x.id = order_id then o1 else x) })

/-- Source `orders.py` `delete_order` (lines 252-279): `require_store_owner`
dependency, fetch (404), tenant check (403), then delete; the
`delete-orphan` cascade removes the order's items. -/
def delete_order (db : DB) (u : User) (order_id : Nat) : Except ApiError Unit × DB :=
  if u.role ≠ UserRole.STORE_OWNER then
    (.error (.forbidden "Store owner access required"), db)
  else
    match db.orders.find? (fun o => o.id == order_id) with
    | none => (.error (.notFound "Order not found"), db)
    | some o =>
      if ¬ check_tenant_access o.entity u then
        (.error (.forbidden "Access denied"), db)
      else
        (.ok (),
         { db with
             orders := db.orders.filter (fun x => x.id ≠ order_id)
             order_items := db.order_items.filter (fun i => i.order_id ≠ order_id) })

/-- Source `orders.py` `update_order_status` (lines 282-324): `require_staff`,
fetch (404), tenant check (403), the STAFF assigned-to-another check,
then the body's `status` value: missing or empty is 400
"Status is required" (Python falsiness), an unknown enum value is 400
"Invalid status", otherwise the status is set — no transition
legality check. -/
def update_order_status (db : DB) (u : User) (order_id : Nat)
    (statusBody : Option String) : Except ApiError Order × DB :=
  if ¬ requireStaffOk u then
    (.error (.forbidden "Staff or store owner access required"), db)
  else
    match db.orders.find? (fun o => o.id == order_id) with
    | none => (.error (.notFound "Order not found"), db)
    | some o =>
      if ¬ check_tenant_access o.entity u then
        (.error (.forbidden "Access denied"), db)
      else if u.role = UserRole.STAFF
          ∧ truthy o.assigned_staff_id
          ∧ o.assigned_staff_id ≠ some u.id then
        (.error (.forbidden "Order is assigned to another staff member"), db)
      else
        match statusBody with
        | none => (.error (.badRequest "Status is required"), db)
        | some s =>
          if s = "" then (.error (.badRequest "Status is required"), db)
          else
            match OrderStatus.fromString s with
            | none => (.error (.badRequest "Invalid status"), db)
            | some st =>
              let o1 := { o with status := st }
              (.ok o1,
               { db with orders := db.orders.map (fun x => if x.id = order_id then o1 else x) })

/-- Source `orders.py` `assign_staff` (lines 327-362): `require_store_owner`,
fetch (404), tenant check (403); a truthy `staff_id` in the body must
name a user of the caller's vendor with role STAFF (404 otherwise) and
is assigned; a falsy `staff_id` (absent, null or 0) clears the
assignment. -/
def assign_staff (db : DB) (u : User) (order_id : Nat)
    (staffIdBody : Option Nat) : Except ApiError Order × DB :=
  if u.role ≠ UserRole.STORE_OWNER then
    (.error (.forbidden "Store owner access required"), db)
  else
    match db.orders.find? (fun o => o.id == order_id) with
    | none => (.error (.notFound "Order not found"), db)
    | some o =>
      if ¬ check_tenant_access o.entity u then
        (.error (.forbidden "Access denied"), db)
      else
        if truthy staffIdBody then
          match db.users.find? (fun x =>
              some x.id == staffIdBody
              && x.vendor_id == u.vendor_id
              && x.role == UserRole.STAFF) with
          | none => (.error (.notFound "Staff member not found"), db)
          | some _ =>
            let o1 := { o with assigned_staff_id := staffIdBody }
            (.ok o1,
             { db with orders := db.orders.map (fun x => if x.id = order_id then o1 else x) })
        else
          let o1 := { o with assigned_staff_id := none }
          (.ok o1,
           { db with orders := db.orders.map (fun x => if x.id = order_id then o1 else x) })

/-- Source `app/schemas/product.py` — `ProductUpdate` restricted to the columns
this embedding models (`description` and `image` are never read by the
core); an outer `none` means the field was not sent. -/
structure ProductUpdate where
  name : Option String
  price : Option Int
  stock_quantity : Option Int
  is_active : Option Bool
deriving DecidableEq, Repr

/-- The `setattr` loop of `update_product` over the fields present in
the request.  Note `stock_quantity` is unconstrained here (the schema
has no bound on it). -/
def applyProductUpdate (p : Product) (upd : ProductUpdate) : Product :=
  let p1 := match upd.name with
    | some n => { p with name := n }
    | none => p
  let p2 := match upd.price with
    | some pr => { p1 with price := pr }
    | none => p1
  let p3 := match upd.stock_quantity with
    | some s => { p2 with stock_quantity := s }
    | none => p2
  match upd.is_active with
  | some b => { p3 with is_active := b }
  | none => p3

/-- Source `products.py` `get_product` (lines 78-93): fetch by id (404), then
tenant check (403). -/
def get_product (db : DB) (u : User) (product_id : Nat) : Except ApiError Product × DB :=
  match db.products.find? (fun p => p.id == product_id) with
  | none => (.error (.notFound "Product not found"), db)
  | some p =>
    if ¬ check_tenant_access p.entity u then
      (.error (.forbidden "Access denied"), db)
    else (.ok p, db)

/-- Source `products.py` `update_product` (lines 96-124): `require_staff`,
fetch (404), tenant check (403), then the `setattr` loop. -/
def update_product (db : DB) (u : User) (product_id : Nat) (upd : ProductUpdate) :
    Except ApiError Product × DB :=
  if ¬ requireStaffOk u then
    (.error (.forbidden "Staff or store owner access required"), db)
  else
    match db.products.find? (fun p => p.id == product_id) with
    | none => (.error (.notFound "Product not found"), db)
    | some p =>
      if ¬ check_tenant_access p.entity u then
        (.error (.forbidden "Access denied"), db)
      else
        let p1 := applyProductUpdate p upd
        (.ok p1,
         { db with products := db.products.map (fun x => if x.id = product_id then p1 else x) })

/-- Source `products.py` `delete_product` (lines 127-155): the `require_staff`
dependency runs first, then `require_store_owner(current_user)` is
called inside the handler — both before the product is fetched; then
fetch (404), tenant check (403), delete. -/
def delete_product (db : DB) (u : User) (product_id : Nat) : Except ApiError Unit × DB :=
  if ¬ requireStaffOk u then
    (.error (.forbidden "Staff or store owner access required"), db)
  else if u.role ≠ UserRole.STORE_OWNER then
    (.error (.forbidden "Store owner access required"), db)
  else
    match db.products.find? (fun p => p.id == product_id) with
    | none => (.error (.notFound "Product not found"), db)
    | some p =>
      if ¬ check_tenant_access p.entity u then
        (.error (.forbidden "Access denied"), db)
      else
        (.ok (), { db with products := db.products.filter (fun x => x.id ≠ product_id) })

/-- Source `products.py` `update_stock` (lines 158-179): the
`Query(..., ge=0)` bound rejects a negative quantity with a 422 before
the handler body; then `require_staff`, fetch (404), tenant check
(403), and the stock is set to the given quantity. -/
def update_stock (db : DB) (u : User) (product_id : Nat) (quantity : Int) :
    Except ApiError Product × DB :=
  if quantity < 0 then (.error .unprocessable, db)
  else if ¬ requireStaffOk u then
    (.error (.forbidden "Staff or store owner access required"), db)
  else
    match db.products.find? (fun p => p.id == product_id) with
    | none => (.error (.notFound "Product not found"), db)
    | some p =>
      if ¬ check_tenant_access p.entity u then
        (.error (.forbidden "Access denied"), db)
      else
        let p1 := { p with stock_quantity := quantity }
        (.ok p1,
         { db with products := db.products.map (fun x => if x.id = product_id then p1 else x) })

/-- The operations the invariant claims quantify over: order placement,
the dedicated stock update, and the three order-mutating endpoints
(which cannot touch items). -/
inductive Op where
  | placeOrder (u : User) (orderNumber : String) (req : OrderCreate)
  | updateStock (u : User) (product_id : Nat) (quantity : Int)
  | updateOrder (u : User) (order_id : Nat) (upd : OrderUpdate)
  | updateOrderStatus (u : User) (order_id : Nat) (statusBody : Option String)
  | assignStaff (u : User) (order_id : Nat) (staffIdBody : Option Nat)
deriving Repr

/-- The database state after running one operation (success or error —
the source's error paths can also commit). -/
def applyOp (op : Op) (db : DB) : DB :=
  match op with
  | .placeOrder u num req => (create_order db u num req).2
  | .updateStock u pid q => (update_stock db u pid q).2
  | .updateOrder u oid upd => (update_order db u oid upd).2
  | .updateOrderStatus u oid body => (update_order_status db u oid body).2
  | .assignStaff u oid sid => (assign_staff db u oid sid).2

/-- The database state after a sequence of operations, first to last. -/
def applyOps (ops : List Op) (db : DB) : DB :=
  ops.foldl (fun d op => applyOp op d) db

/-! ### Invariants and helper lemmas -/

/-- All product stock counters are non-negative. -/
def prodsNonneg (ps : List Product) : Prop := ∀ p ∈ ps, 0 ≤ p.stock_quantity

/-- All product stock counters of the store are non-negative. -/
def stocksNonneg (db : DB) : Prop := prodsNonneg db.products

/-- Product ids are unique (the `id` column is a primary key). -/
def productIdsNodup (db : DB) : Prop := (db.products.map (fun p => p.id)).Nodup

/-- The items of one order. -/
def itemsOf (db : DB) (oid : Nat) : List OrderItem :=
  db.order_items.filter (fun i => i.order_id == oid)

/-- Every order's `total_amount` equals the sum of its items'
subtotals. -/
def totalInv (db : DB) : Prop :=
  ∀ o ∈ db.orders, o.total_amount = ((itemsOf db o.id).map (fun i => i.subtotal)).sum

/-- The products list carried by either outcome of the item loop. -/
def loopProds :
    Except (ApiError × List OrderItem × List Product)
      (List OrderItem × List Product × Nat) → List Product
  | .error (_, _, ps) => ps
  | .ok (_, ps, _) => ps

lemma decrementStock_ids (ps : List Product) (pid : Nat) (q : Int) :
    (decrementStock ps pid q).map (fun p => p.id) = ps.map (fun p => p.id) := by
  induction ps with
  | nil => rfl
  | cons p t ih =>
    by_cases h : p.id = pid <;> simp [decrementStock, h] <;>
      simpa [decrementStock] using ih

lemma decrementStock_nonneg (ps : List Product) (pid : Nat) (q : Int)
    (h : prodsNonneg ps)
    (hq : ∀ p ∈ ps, p.id = pid → q ≤ p.stock_quantity) :
    prodsNonneg (decrementStock ps pid q) := by
  intro x hx
  simp only [decrementStock, List.mem_map] at hx
  obtain ⟨p, hp, hpx⟩ := hx
  by_cases hid : p.id = pid
  · have := hq p hp hid
    simp only [hid, if_pos rfl] at hpx
    subst hpx
    simpa using by linarith [h p hp]
  · simp only [if_neg hid] at hpx
    subst hpx
    exact h p hp

lemma loopProds_ids (v oid : Nat) (its : List OrderItemCreate) :
    ∀ (ps : List Product) (nid : Nat),
      (loopProds (orderItemsLoop v oid its ps nid)).map (fun p => p.id)
        = ps.map (fun p => p.id) := by
  induction its with
  | nil => intro ps nid; rfl
  | cons it rest ih =>
    intro ps nid
    simp only [orderItemsLoop]
    cases hf : ps.find? (fun p => p.id == it.product_id) with
    | none => rfl
    | some p =>
      by_cases h1 : p.vendor_id ≠ v
      · simp [h1, loopProds]
      · by_cases h2 : ¬ p.is_active
        · simp [h1, h2, loopProds]
        · by_cases h3 : p.stock_quantity < it.quantity
          · simp [h1, h2, h3, loopProds]
          · have hrec := ih (decrementStock ps p.id it.quantity) (nid + 1)
            rw [decrementStock_ids] at hrec
            cases hcall : orderItemsLoop v oid rest
                (decrementStock ps p.id it.quantity) (nid + 1) with
            | error e =>
              simp only [h1, h2, h3, if_false, if_true, ite_false, ite_true, hcall]
              rw [hcall] at hrec
              simpa [loopProds] using hrec
            | ok r =>
              simp only [h1, h2, h3, if_false, if_true, ite_false, ite_true, hcall]
              rw [hcall] at hrec
              obtain ⟨items, ps2, nid2⟩ := r
              simpa [loopProds] using hrec

lemma loopProds_nonneg (v oid : Nat) (its : List OrderItemCreate) :
    ∀ (ps : List Product) (nid : Nat),
      (ps.map (fun p => p.id)).Nodup → prodsNonneg ps →
      prodsNonneg (loopProds (orderItemsLoop v oid its ps nid)) := by
  induction its with
  | nil => intro ps nid _ h; exact h
  | cons it rest ih =>
    intro ps nid hnd h
    simp only [orderItemsLoop]
    cases hf : ps.find? (fun p => p.id == it.product_id) with
    | none => exact h
    | some p =>
      have hpmem : p ∈ ps := List.mem_of_find?_eq_some hf
      by_cases h1 : p.vendor_id ≠ v
      · simpa [h1, loopProds] using h
      · by_cases h2 : ¬ p.is_active
        · simpa [h1, h2, loopProds] using h
        · by_cases h3 : p.stock_quantity < it.quantity
          · simpa [h1, h2, h3, loopProds] using h
          · have hq : ∀ x ∈ ps, x.id = p.id → it.quantity ≤ x.stock_quantity := by
              intro x hx hxid
              have hxp : x = p :=
                List.inj_on_of_nodup_map hnd hx hpmem hxid
              subst hxp
              linarith [not_lt.mp h3]
            have hps1 : prodsNonneg (decrementStock ps p.id it.quantity) :=
              decrementStock_nonneg ps p.id it.quantity h hq
            have hnd1 : ((decrementStock ps p.id it.quantity).map
                (fun p => p.id)).Nodup := by
              rw [decrementStock_ids]; exact hnd
            have hrec := ih (decrementStock ps p.id it.quantity) (nid + 1) hnd1 hps1
            cases hcall : orderItemsLoop v oid rest
                (decrementStock ps p.id it.quantity) (nid + 1) with
            | error e =>
              simp only [h1, h2, h3, if_false, if_true, ite_false, ite_true, hcall]
              rw [hcall] at hrec
              simpa [loopProds] using hrec
            | ok r =>
              simp only [h1, h2, h3, if_false, if_true, ite_false, ite_true, hcall]
              rw [hcall] at hrec
              obtain ⟨items, ps2, nid2⟩ := r
              simpa [loopProds] using hrec

/-- A successful item loop records exactly one `OrderItem` per request
item, in order: same product, same quantity, the request's
`unit_price` as the snapshot, `subtotal = unit_price × quantity`, and
the new order's id. -/
lemma orderItemsLoop_ok_spec (v oid : Nat) (its : List OrderItemCreate) :
    ∀ (ps : List Product) (nid : Nat) (items : List OrderItem)
      (ps1 : List Product) (nid1 : Nat),
      orderItemsLoop v oid its ps nid = .ok (items, ps1, nid1) →
      List.Forall₂ (fun (i : OrderItem) (it : OrderItemCreate) =>
        i.order_id = oid ∧ i.product_id = it.product_id
        ∧ i.quantity = it.quantity ∧ i.unit_price = it.unit_price
        ∧ i.subtotal = it.unit_price * it.quantity) items its := by
  induction its with
  | nil =>
    intro ps nid items ps1 nid1 hok
    simp only [orderItemsLoop] at hok
    cases hok
    exact List.Forall₂.nil
  | cons it rest ih =>
    intro ps nid items ps1 nid1 hok
    simp only [orderItemsLoop] at hok
    cases hf : ps.find? (fun p => p.id == it.product_id) with
    | none => rw [hf] at hok; cases hok
    | some p =>
      rw [hf] at hok
      by_cases h1 : p.vendor_id ≠ v
      · simp [h1] at hok
      · by_cases h2 : ¬ p.is_active
        · simp [h1, h2] at hok
        · by_cases h3 : p.stock_quantity < it.quantity
          · simp [h1, h2, h3] at hok
          · simp only [h1, h2, h3, if_false, if_true, ite_false, ite_true] at hok
            cases hcall : orderItemsLoop v oid rest
                (decrementStock ps p.id it.quantity) (nid + 1) with
            | error e => rw [hcall] at hok; cases hok
            | ok r =>
              obtain ⟨items2, ps2, nid2⟩ := r
              rw [hcall] at hok
              cases hok
              have hfp : p.id = it.product_id := by
                have := List.find?_some hf
                simpa using this
              exact List.Forall₂.cons
                ⟨rfl, hfp, rfl, rfl, rfl⟩
                (ih _ _ _ _ _ hcall)

lemma update_order_products (db : DB) (u : User) (oid : Nat) (upd : OrderUpdate) :
    (update_order db u oid upd).2.products = db.products := by
  unfold update_order
  repeat' split
  all_goals rfl

lemma update_order_status_products (db : DB) (u : User) (oid : Nat)
    (body : Option String) :
    (update_order_status db u oid body).2.products = db.products := by
  unfold update_order_status
  repeat' split
  all_goals rfl

lemma assign_staff_products (db : DB) (u : User) (oid : Nat) (sid : Option Nat) :
    (assign_staff db u oid sid).2.products = db.products := by
  unfold assign_staff
  repeat' split
  all_goals rfl

lemma create_order_products_eq (db : DB) (u : User) (num : String) (req : OrderCreate) :
    (create_order db u num req).2.products =
      match u.vendor_id with
      | none => db.products
      | some v =>
        if v = 0 then db.products
        else loopProds
          (orderItemsLoop v (newOrderId db) req.items db.products (firstItemId db)) := by
  cases hu : u.vendor_id with
  | none => simp [create_order, hu]
  | some v =>
    by_cases hv : v = 0
    · simp [create_order, hu, hv]
    · simp only [create_order, hu, hv, ite_false]
      cases hc : db.customers.find? (fun c => c.vendor_id == v && c.user_id == u.id) with
      | none =>
        cases hcall : orderItemsLoop v (newOrderId db) req.items db.products
            (firstItemId db) with
        | error e => obtain ⟨e1, ps⟩ := e; simp [hc, hcall, loopProds]
        | ok r => obtain ⟨items, ps, nid⟩ := r; simp [hc, hcall, loopProds]
      | some c =>
        cases hcall : orderItemsLoop v (newOrderId db) req.items db.products
            (firstItemId db) with
        | error e => obtain ⟨e1, ps⟩ := e; simp [hc, hcall, loopProds]
        | ok r => obtain ⟨items, ps, nid⟩ := r; simp [hc, hcall, loopProds]

lemma map_ids_congr (ps : List Product) (f : Product → Product)
    (hf : ∀ p ∈ ps, (f p).id = p.id) :
    (ps.map f).map (fun p => p.id) = ps.map (fun p => p.id) := by
  induction ps with
  | nil => rfl
  | cons a t ih =>
    simp only [List.map_cons, List.cons.injEq]
    exact ⟨hf a (List.mem_cons_self a t),
      ih (fun p hp => hf p (List.mem_cons_of_mem a hp))⟩

/-- Every operation of the engine keeps all stock counters non-negative
and keeps product ids unique. -/
lemma stockInv_applyOp (op : Op) (db : DB)
    (hs : stocksNonneg db) (hnd : productIdsNodup db) :
    stocksNonneg (applyOp op db) ∧ productIdsNodup (applyOp op db) := by
  cases op with
  | placeOrder u num req =>
    have hps := create_order_products_eq db u num req
    constructor
    · show prodsNonneg (create_order db u num req).2.products
      rw [hps]
      cases hu : u.vendor_id with
      | none => exact hs
      | some v =>
        by_cases hv : v = 0
        · simp only [hv, ite_true]; exact hs
        · simp only [hv, ite_false]
          exact loopProds_nonneg v (newOrderId db) req.items db.products
            (firstItemId db) hnd hs
    · show ((create_order db u num req).2.products.map (fun p => p.id)).Nodup
      rw [hps]
      cases hu : u.vendor_id with
      | none => exact hnd
      | some v =>
        by_cases hv : v = 0
        · simp only [hv, ite_true]; exact hnd
        · simp only [hv, ite_false]
          rw [loopProds_ids]
          exact hnd
  | updateStock u pid q =>
    simp only [applyOp]
    unfold update_stock
    by_cases h0 : q < 0
    · simp only [h0, ite_true]
      exact ⟨hs, hnd⟩
    · simp only [h0, ite_false]
      by_cases h1 : requireStaffOk u
      · simp only [h1, not_true, ite_false, if_false]
        cases hf : db.products.find? (fun p => p.id == pid) with
        | none => simp only [hf]; exact ⟨hs, hnd⟩
        | some p =>
          have hpid : p.id = pid := by
            have := List.find?_some hf
            simpa using this
          by_cases h2 : check_tenant_access p.entity u
          · simp only [hf, h2, not_true, ite_false, if_false]
            constructor
            · intro x hx
              simp only [List.mem_map] at hx
              obtain ⟨y, hy, hyx⟩ := hx
              by_cases hid : y.id = pid
              · simp only [hid, if_pos rfl] at hyx
                subst hyx
                simpa using not_lt.mp h0
              · simp only [if_neg hid] at hyx
                subst hyx
                exact hs y hy
            · have hok : ((db.products.map (fun x =>
                  if x.id = pid then { p with stock_quantity := q } else x)).map
                    (fun pr => pr.id)).Nodup := by
                rw [map_ids_congr]
                · exact hnd
                · intro x hx
                  by_cases hid : x.id = pid
                  · rw [if_pos hid]
                    show p.id = x.id
                    rw [hpid, hid]
                  · rw [if_neg hid]
              exact hok
          · simp only [hf, h2, not_false_eq_true, ite_true, if_true]
            exact ⟨hs, hnd⟩
      · simp only [h1, not_false_eq_true, ite_true, if_true]
        exact ⟨hs, hnd⟩
  | updateOrder u oid upd =>
    constructor
    · show prodsNonneg (update_order db u oid upd).2.products
      rw [update_order_products]; exact hs
    · show ((update_order db u oid upd).2.products.map (fun p => p.id)).Nodup
      rw [update_order_products]; exact hnd
  | updateOrderStatus u oid body =>
    constructor
    · show prodsNonneg (update_order_status db u oid body).2.products
      rw [update_order_status_products]; exact hs
    · show ((update_order_status db u oid body).2.products.map (fun p => p.id)).Nodup
      rw [update_order_status_products]; exact hnd
  | assignStaff u oid sid =>
    constructor
    · show prodsNonneg (assign_staff db u oid sid).2.products
      rw [assign_staff_products]; exact hs
    · show ((assign_staff db u oid sid).2.products.map (fun p => p.id)).Nodup
      rw [assign_staff_products]; exact hnd

lemma stockInv_applyOps (ops : List Op) :
    ∀ (db : DB), stocksNonneg db → productIdsNodup db →
      stocksNonneg (applyOps ops db) ∧ productIdsNodup (applyOps ops db) := by
  induction ops with
  | nil => intro db hs hnd; exact ⟨hs, hnd⟩
  | cons op rest ih =>
    intro db hs hnd
    have h1 := stockInv_applyOp op db hs hnd
    have := ih (applyOp op db) h1.1 h1.2
    simpa [applyOps, List.foldl_cons] using this

lemma forall₂_left {α β : Type} {R : α → β → Prop} :
    ∀ {l1 : List α} {l2 : List β}, List.Forall₂ R l1 l2 → ∀ a ∈ l1, ∃ b, R a b := by
  intro l1 l2 h
  induction h with
  | nil => intro a ha; cases ha
  | cons hr _ ih =>
    intro a ha
    rcases List.mem_cons.mp ha with h1 | h2
    · exact ⟨_, h1 ▸ hr⟩
    · exact ih a h2

/-- Every item recorded by a successful loop carries the new order's
id. -/
lemma orderItemsLoop_ok_order_id (v oid : Nat) (its : List OrderItemCreate)
    (ps : List Product) (nid : Nat) (items : List OrderItem)
    (ps1 : List Product) (nid1 : Nat)
    (hok : orderItemsLoop v oid its ps nid = .ok (items, ps1, nid1)) :
    ∀ i ∈ items, i.order_id = oid := by
  intro i hi
  obtain ⟨b, hb⟩ :=
    forall₂_left (orderItemsLoop_ok_spec v oid its ps nid items ps1 nid1 hok) i hi
  exact hb.1

/-- The customer id `create_order` stamps on the new order: the existing
`Customer` row of this (vendor, user) pair, or the freshly inserted
one. -/
def customerIdFor (db : DB) (v : Nat) (uid : Nat) : Nat :=
  match db.customers.find? (fun c => c.vendor_id == v && c.user_id == uid) with
  | some c => c.id
  | none => (newCustomerId db)

/-- The order row a successful `create_order` returns. -/
def newOrder (db : DB) (u : User) (num : String) (req : OrderCreate)
    (v : Nat) (total : Int) : Order :=
  { id := (newOrderId db)
    vendor_id := v
    customer_id := customerIdFor db v u.id
    order_number := num
    status := req.status
    total_amount := total
    shipping_address := req.shipping_address
    notes := req.notes
    assigned_staff_id := none }

/-- When the item loop fails, `create_order` surfaces that error, the
new order row does not survive, the items recorded for earlier items of
the request persist as orphaned rows, and the products table is the
loop's partially decremented view. -/
lemma create_order_err_proj (db : DB) (u : User) (num : String) (req : OrderCreate)
    (v : Nat) (e : ApiError) (its : List OrderItem) (ps : List Product)
    (hu : u.vendor_id = some v) (hv : v ≠ 0)
    (hcall : orderItemsLoop v (newOrderId db) req.items db.products (firstItemId db)
      = .error (e, its, ps)) :
    (create_order db u num req).1 = .error e
    ∧ (create_order db u num req).2.orders
        = db.orders.filter (fun o => o.id ≠ (newOrderId db))
    ∧ (create_order db u num req).2.order_items = db.order_items ++ its
    ∧ (create_order db u num req).2.products = ps := by
  cases hc : db.customers.find? (fun c => c.vendor_id == v && c.user_id == u.id) with
  | none => simp [create_order, hu, hv, hc, hcall, List.filter_append]
  | some c => simp [create_order, hu, hv, hc, hcall, List.filter_append]

/-- When the item loop succeeds, `create_order` returns the new order
with `total_amount` the sum of the recorded items' subtotals, appends
exactly those items, and commits the loop's decremented products
view. -/
lemma create_order_ok_proj (db : DB) (u : User) (num : String) (req : OrderCreate)
    (v : Nat) (items : List OrderItem) (ps : List Product) (nid : Nat)
    (hu : u.vendor_id = some v) (hv : v ≠ 0)
    (hcall : orderItemsLoop v (newOrderId db) req.items db.products (firstItemId db)
      = .ok (items, ps, nid)) :
    (create_order db u num req).1
        = .ok (newOrder db u num req v ((items.map (fun i => i.subtotal)).sum))
    ∧ (create_order db u num req).2.orders
        = db.orders.map (fun x =>
            if x.id = (newOrderId db)
            then newOrder db u num req v ((items.map (fun i => i.subtotal)).sum)
            else x)
          ++ [newOrder db u num req v ((items.map (fun i => i.subtotal)).sum)]
    ∧ (create_order db u num req).2.order_items = db.order_items ++ items
    ∧ (create_order db u num req).2.products = ps := by
  cases hc : db.customers.find? (fun c => c.vendor_id == v && c.user_id == u.id) with
  | none => simp [create_order, hu, hv, hc, hcall, newOrder, customerIdFor]
  | some c => simp [create_order, hu, hv, hc, hcall, newOrder, customerIdFor]

/-! ### Concrete sample store used by witnesses and counterexamples -/

/-- Vendor 1's owner. -/
def sampleOwner : User :=
  { id := 1, username := "owner1", email := "owner1@shop.test", first_name := "Olive"
    last_name := "Wren", vendor_id := some 1, role := .STORE_OWNER, phone_number := none }

/-- Vendor 1 staff member. -/
def sampleStaff : User :=
  { id := 5, username := "staff5", email := "staff5@shop.test", first_name := "Sam"
    last_name := "Field", vendor_id := some 1, role := .STAFF, phone_number := none }

/-- A second vendor-1 staff member. -/
def sampleStaff2 : User :=
  { id := 6, username := "staff6", email := "staff6@shop.test", first_name := "Sib"
    last_name := "Gale", vendor_id := some 1, role := .STAFF, phone_number := none }

/-- Vendor 1 customer-role user. -/
def sampleBuyer : User :=
  { id := 9, username := "buyer9", email := "buyer9@shop.test", first_name := ""
    last_name := "", vendor_id := some 1, role := .CUSTOMER, phone_number := none }

/-- Product 1 of vendor 1: price 9.99, stock 5. -/
def sampleWidget : Product :=
  { id := 1, vendor_id := 1, name := "Widget", price := 999
    stock_quantity := 5, is_active := true }

/-- Product 2 of vendor 1: out of stock. -/
def sampleGadget : Product :=
  { id := 2, vendor_id := 1, name := "Gadget", price := 500
    stock_quantity := 0, is_active := true }

/-- A small store for vendor 1 with no orders yet. -/
def sampleDB : DB :=
  { users := [sampleOwner, sampleStaff, sampleStaff2, sampleBuyer]
    products := [sampleWidget, sampleGadget]
    customers := [], orders := [], order_items := []
  }

/-! ### Claims -/

/-- C3: across every sequence of engine operations — order placements
(which decrement stock) and staff stock updates included — every
product's `stock_quantity` stays non-negative, and an order item whose
requested quantity exceeds the product's stock is rejected with the
insufficient-stock error without changing the products table. -/
theorem C3_stock_never_negative :
    (∀ (ops : List Op) (db : DB), stocksNonneg db → productIdsNodup db →
        stocksNonneg (applyOps ops db))
    ∧ (∀ (db : DB) (u : User) (num addr : String) (nts : Option String)
          (st : OrderStatus) (pid : Nat) (q up : Int) (v : Nat) (p : Product),
        u.vendor_id = some v → v ≠ 0 →
        db.products.find? (fun x => x.id == pid) = some p →
        p.vendor_id = v → p.is_active = true → p.stock_quantity < q →
        (create_order db u num ⟨addr, nts, st, [⟨pid, q, up⟩]⟩).1
            = .error (.badRequest ("Insufficient stock for " ++ p.name))
          ∧ (create_order db u num ⟨addr, nts, st, [⟨pid, q, up⟩]⟩).2.products
              = db.products) := by
  constructor
  · intro ops db hs hnd
    exact (stockInv_applyOps ops db hs hnd).1
  · intro db u num addr nts st pid q up v p hu hv hfind hpv hact hstock
    have hloop : orderItemsLoop v (newOrderId db) [⟨pid, q, up⟩] db.products
        (firstItemId db)
        = .error (.badRequest ("Insufficient stock for " ++ p.name),
            [], db.products) := by
      simp only [orderItemsLoop, hfind]
      rw [if_neg (by simp [hpv])]
      rw [if_neg (by simp [hact])]
      rw [if_pos hstock]
    obtain ⟨h1, _, _, h4⟩ := create_order_err_proj db u num
      ⟨addr, nts, st, [⟨pid, q, up⟩]⟩ v
      (.badRequest ("Insufficient stock for " ++ p.name)) [] db.products hu hv hloop
    exact ⟨h1, h4⟩

/-- Witness for C3 at the sample store: a successful placement of 2
Widgets keeps all stocks non-negative, and ordering 1 Gadget (stock 0)
is rejected with the insufficient-stock error, products unchanged. -/
theorem C3_stock_never_negative_witness :
    stocksNonneg (applyOps
      [Op.placeOrder sampleBuyer "ORD-C3" ⟨"addr", none, .PENDING, [⟨1, 2, 999⟩]⟩]
      sampleDB)
    ∧ (create_order sampleDB sampleBuyer "ORD-C3b"
        ⟨"addr", none, .PENDING, [⟨2, 1, 500⟩]⟩).1
        = .error (.badRequest ("Insufficient stock for " ++ sampleGadget.name)) :=
  ⟨C3_stock_never_negative.1
      [Op.placeOrder sampleBuyer "ORD-C3" ⟨"addr", none, .PENDING, [⟨1, 2, 999⟩]⟩]
      sampleDB (by unfold stocksNonneg prodsNonneg; decide)
      (by unfold productIdsNodup; decide),
   (C3_stock_never_negative.2 sampleDB sampleBuyer "ORD-C3b" "addr" none .PENDING
      2 1 500 1 sampleGadget rfl (by decide) (by decide) rfl rfl (by decide)).1⟩

/-- Spec-side scan (from §4.5 step 3 of the specification's words): the
requested items are examined in the order submitted; per item the checks
are absence (not-found), cross-tenant (forbidden), inactive
(bad-request), then insufficient stock (bad-request); the first failing
check decides the outcome, and a passing item's stock decrement is
visible to the later items. -/
def specFirstFailure (v : Nat) : List OrderItemCreate → List Product → Option ApiError
  | [], _ => none
  | it :: rest, prods =>
    match prods.find? (fun p => p.id == it.product_id) with
    | none => some (.notFound ("Product " ++ toString it.product_id ++ " not found"))
    | some p =>
      if p.vendor_id ≠ v then
        some (.forbidden ("Product " ++ p.name ++ " does not belong to this vendor"))
      else if ¬ p.is_active then
        some (.badRequest ("Product " ++ p.name ++ " is not active"))
      else if p.stock_quantity < it.quantity then
        some (.badRequest ("Insufficient stock for " ++ p.name))
      else specFirstFailure v rest (decrementStock prods p.id it.quantity)

/-- The error component (if any) of an item-loop outcome. -/
def errOf {β : Type} :
    Except (ApiError × List OrderItem × List Product) β → Option ApiError
  | .error (e, _, _) => some e
  | .ok _ => none

/-- The item loop's first failure is exactly the spec-side scan's first
failure. -/
lemma orderItemsLoop_errOf (v oid : Nat) (its : List OrderItemCreate) :
    ∀ (ps : List Product) (nid : Nat),
      errOf (orderItemsLoop v oid its ps nid) = specFirstFailure v its ps := by
  induction its with
  | nil => intro ps nid; rfl
  | cons it rest ih =>
    intro ps nid
    cases hf : ps.find? (fun p => p.id == it.product_id) with
    | none => simp only [orderItemsLoop, specFirstFailure, hf]; rfl
    | some p =>
      simp only [orderItemsLoop, specFirstFailure, hf]
      by_cases h1 : p.vendor_id ≠ v
      · rw [if_pos h1, if_pos h1]; rfl
      · rw [if_neg h1, if_neg h1]
        by_cases h2 : ¬ p.is_active
        · rw [if_pos h2, if_pos h2]; rfl
        · rw [if_neg h2, if_neg h2]
          by_cases h3 : p.stock_quantity < it.quantity
          · rw [if_pos h3, if_pos h3]; rfl
          · rw [if_neg h3, if_neg h3]
            have := ih (decrementStock ps p.id it.quantity) (nid + 1)
            rw [← this]
            cases orderItemsLoop v oid rest
                (decrementStock ps p.id it.quantity) (nid + 1) with
            | error e2 => obtain ⟨e3, its3, ps3⟩ := e2; rfl
            | ok r => obtain ⟨items2, ps2, nid2⟩ := r; rfl

/-- C6: for a caller with a (truthy) vendor id, `create_order` processes
the submitted items in order and its outcome is exactly the spec's
first-failure scan: not-found for an absent product, forbidden for a
cross-tenant product, bad-request for an inactive product, bad-request
for insufficient stock — the first failing check decides, and the call
succeeds exactly when no check fails. -/
theorem C6_first_failing_check_decides :
    ∀ (db : DB) (u : User) (num : String) (req : OrderCreate) (v : Nat),
      u.vendor_id = some v → v ≠ 0 →
      (∀ e, (create_order db u num req).1 = .error e
          ↔ specFirstFailure v req.items db.products = some e)
      ∧ ((∃ o, (create_order db u num req).1 = .ok o)
          ↔ specFirstFailure v req.items db.products = none) := by
  intro db u num req v hu hv
  cases hcall : orderItemsLoop v (newOrderId db) req.items db.products
      (firstItemId db) with
  | error e2 =>
    obtain ⟨e1, its, ps⟩ := e2
    obtain ⟨h1, _⟩ := create_order_err_proj db u num req v e1 its ps hu hv hcall
    have hspec : specFirstFailure v req.items db.products = some e1 := by
      rw [← orderItemsLoop_errOf v (newOrderId db) req.items db.products
        (firstItemId db), hcall]
      rfl
    constructor
    · intro e
      rw [h1, hspec]
      constructor
      · intro h; cases h; rfl
      · intro h; cases h; rfl
    · rw [h1, hspec]
      constructor
      · rintro ⟨o, ho⟩; cases ho
      · intro h; cases h
  | ok r =>
    obtain ⟨items, ps, nid⟩ := r
    obtain ⟨h1, _⟩ := create_order_ok_proj db u num req v items ps nid hu hv hcall
    have hspec : specFirstFailure v req.items db.products = none := by
      rw [← orderItemsLoop_errOf v (newOrderId db) req.items db.products
        (firstItemId db), hcall]
      rfl
    constructor
    · intro e
      rw [h1, hspec]
      constructor
      · intro h; cases h
      · intro h; cases h
    · rw [h1, hspec]
      exact ⟨fun _ => rfl, fun _ => ⟨_, rfl⟩⟩

/-- Witness for C6: on the sample store, ordering an absent product
(id 3) fails with exactly the spec's first-failure outcome. -/
theorem C6_first_failing_check_decides_witness :
    (create_order sampleDB sampleBuyer "ORD-C6"
        ⟨"addr", none, .PENDING, [⟨3, 1, 100⟩]⟩).1
      = .error (.notFound ("Product " ++ toString 3 ++ " not found"))
    ↔ specFirstFailure 1 [⟨3, 1, 100⟩] sampleDB.products
      = some (.notFound ("Product " ++ toString 3 ++ " not found")) :=
  (C6_first_failing_check_decides sampleDB sampleBuyer "ORD-C6"
    ⟨"addr", none, .PENDING, [⟨3, 1, 100⟩]⟩ 1 rfl (by decide)).1
    (.notFound ("Product " ++ toString 3 ++ " not found"))

lemma find?_decrementStock (ps : List Product) (pid : Nat) (q : Int) (p : Product)
    (h : ps.find? (fun x => x.id == pid) = some p) :
    (decrementStock ps pid q).find? (fun x => x.id == pid)
      = some { p with stock_quantity := p.stock_quantity - q } := by
  induction ps with
  | nil => simp at h
  | cons a t ih =>
    by_cases ha : a.id = pid
    · have hb : (a.id == pid) = true := by simp [ha]
      rw [List.find?_cons_of_pos (p := fun (x : Product) => x.id == pid) _ hb] at h
      have hap : a = p := by injection h
      subst hap
      show ((if a.id = pid then { a with stock_quantity := a.stock_quantity - q } else a)
          :: decrementStock t pid q).find? (fun x => x.id == pid) = _
      rw [if_pos ha]
      rw [List.find?_cons_of_pos (p := fun (x : Product) => x.id == pid) _ (by simp [ha])]
    · have hb : ¬ (a.id == pid) = true := by simp [ha]
      rw [List.find?_cons_of_neg (p := fun (x : Product) => x.id == pid) _ hb] at h
      show ((if a.id = pid then { a with stock_quantity := a.stock_quantity - q } else a)
          :: decrementStock t pid q).find? (fun x => x.id == pid) = _
      rw [if_neg ha]
      rw [List.find?_cons_of_neg (p := fun (x : Product) => x.id == pid) _ hb]
      exact ih h

/-- C10: the order-item schema puts no bound on `quantity`, so
`create_order` accepts zero and negative quantities: for a single-item
order with quantity `q ≤ 0` on an active same-tenant product with
non-negative stock `s`, the order succeeds, the stock becomes `s - q`
(an increase when `q < 0`), and the recorded item contributes
`unit_price × q ≤ 0` to the total. -/
theorem C10_nonpositive_quantity_accepted :
    ∀ (db : DB) (u : User) (num addr : String) (nts : Option String)
      (st : OrderStatus) (pid : Nat) (q up : Int) (v : Nat) (p : Product),
      u.vendor_id = some v → v ≠ 0 →
      db.products.find? (fun x => x.id == pid) = some p →
      p.vendor_id = v → p.is_active = true → q ≤ 0 → 0 ≤ p.stock_quantity → 0 ≤ up →
      (create_order db u num ⟨addr, nts, st, [⟨pid, q, up⟩]⟩).1
          = .ok (newOrder db u num ⟨addr, nts, st, [⟨pid, q, up⟩]⟩ v (up * q))
        ∧ (create_order db u num ⟨addr, nts, st, [⟨pid, q, up⟩]⟩).2.products.find?
            (fun x => x.id == pid)
            = some { p with stock_quantity := p.stock_quantity - q }
        ∧ (create_order db u num ⟨addr, nts, st, [⟨pid, q, up⟩]⟩).2.order_items
            = db.order_items
              ++ [{ id := (firstItemId db), order_id := (newOrderId db),
                    product_id := pid, quantity := q, unit_price := up,
                    subtotal := up * q }]
        ∧ up * q ≤ 0 := by
  intro db u num addr nts st pid q up v p hu hv hfind hpv hact hq h0 hup
  have hid : p.id = pid := by simpa using List.find?_some hfind
  have hloop : orderItemsLoop v (newOrderId db) [⟨pid, q, up⟩] db.products
      (firstItemId db)
      = .ok ([{ id := (firstItemId db), order_id := (newOrderId db),
                product_id := p.id, quantity := q, unit_price := up,
                subtotal := up * q }],
             decrementStock db.products p.id q, (firstItemId db) + 1) := by
    simp only [orderItemsLoop, hfind]
    rw [if_neg (by simp [hpv])]
    rw [if_neg (by simp [hact])]
    rw [if_neg (not_lt.mpr (le_trans hq h0))]
  obtain ⟨h1, _, hitems, hprods⟩ := create_order_ok_proj db u num
    ⟨addr, nts, st, [⟨pid, q, up⟩]⟩ v _ _ _ hu hv hloop
  have hsum : (([({ id := (firstItemId db), order_id := (newOrderId db),
                    product_id := p.id, quantity := q, unit_price := up,
                    subtotal := up * q } : OrderItem)].map
      (fun i => i.subtotal))).sum = up * q := by simp
  rw [hsum] at h1
  refine ⟨h1, ?_, ?_, ?_⟩
  · rw [hprods]
    conv_lhs => rw [hid]
    exact find?_decrementStock db.products pid q p hfind
  · rw [hitems, hid]
  · exact mul_nonpos_iff.mpr (Or.inl ⟨hup, hq⟩)

/-- Witness for C10: ordering quantity −2 of the Widget (stock 5)
succeeds on the sample store, raising the stock to 7 and contributing
−19.98 to the total. -/
theorem C10_nonpositive_quantity_accepted_witness :
    (create_order sampleDB sampleBuyer "ORD-C10"
        ⟨"addr", none, .PENDING, [⟨1, -2, 999⟩]⟩).1
      = .ok (newOrder sampleDB sampleBuyer "ORD-C10"
          ⟨"addr", none, .PENDING, [⟨1, -2, 999⟩]⟩ 1 (999 * (-2)))
    ∧ (create_order sampleDB sampleBuyer "ORD-C10"
        ⟨"addr", none, .PENDING, [⟨1, -2, 999⟩]⟩).2.products.find?
        (fun x => x.id == 1)
        = some { sampleWidget with
                   stock_quantity := sampleWidget.stock_quantity - (-2) }
    ∧ (create_order sampleDB sampleBuyer "ORD-C10"
        ⟨"addr", none, .PENDING, [⟨1, -2, 999⟩]⟩).2.order_items
        = sampleDB.order_items
          ++ [{ id := (firstItemId sampleDB), order_id := (newOrderId sampleDB),
                product_id := 1, quantity := -2, unit_price := 999,
                subtotal := 999 * (-2) }]
    ∧ (999 : Int) * (-2) ≤ 0 :=
  C10_nonpositive_quantity_accepted sampleDB sampleBuyer "ORD-C10" "addr" none
    .PENDING 1 (-2) 999 1 sampleWidget rfl (by decide) rfl rfl rfl (by decide)
    (by decide) (by decide)

/-- C7: for tenant ids as they occur in the store (positive
autoincremented keys, so Python truthiness agrees with a null test),
`check_tenant_access` returns true exactly when the caller has a
non-null tenant id equal to the entity's owning tenant id as resolved
by the attribute chain (directly, or transitively through a referenced
customer/user), and returns false — it is a total Boolean function and
never throws — whenever either tenant id is absent. -/
theorem C7_tenant_guard_iff :
    ∀ (e : Entity) (u : User),
      (∀ w, resolveVendorId e = some w → 0 < w) →
      (∀ w, u.vendor_id = some w → 0 < w) →
      ((check_tenant_access e u = true
          ↔ ∃ w, u.vendor_id = some w ∧ resolveVendorId e = some w)
        ∧ ((resolveVendorId e = none ∨ u.vendor_id = none)
            → check_tenant_access e u = false)) := by
  intro e u hpe hpu
  cases hr : resolveVendorId e with
  | none =>
    constructor
    · simp [check_tenant_access, hr, truthy]
    · intro _
      simp [check_tenant_access, hr, truthy]
  | some w =>
    have hw : w ≠ 0 := Nat.pos_iff_ne_zero.mp (hpe w hr)
    cases hu : u.vendor_id with
    | none =>
      constructor
      · simp [check_tenant_access, hr, hu, truthy]
      · intro _
        simp [check_tenant_access, hr, hu, truthy]
    | some w2 =>
      have hw2 : w2 ≠ 0 := Nat.pos_iff_ne_zero.mp (hpu w2 hu)
      have hc : check_tenant_access e u = (w2 == w) := by
        simp [check_tenant_access, hr, hu, truthy, hw, hw2]
      constructor
      · rw [hc]
        constructor
        · intro hbe
          have hweq : w2 = w := by simpa using hbe
          exact ⟨w2, rfl, by rw [hweq]⟩
        · rintro ⟨x, hx1, hx2⟩
          have h1 : w2 = x := by injection hx1
          have h2 : w = x := by injection hx2
          simp [h1, h2]
      · intro h
        rcases h with h | h
        · exact Option.noConfusion h
        · exact Option.noConfusion h

/-- Witness for C7: an entity of vendor 1 is accessible to the vendor-1
owner. -/
theorem C7_tenant_guard_iff_witness :
    check_tenant_access ⟨some (some 1), none, none⟩ sampleOwner = true :=
  (C7_tenant_guard_iff ⟨some (some 1), none, none⟩ sampleOwner
      (by intro w hw; simp [resolveVendorId] at hw; omega)
      (by intro w hw; simp [sampleOwner] at hw; omega)).1.mpr
    ⟨1, rfl, rfl⟩

lemma check_tenant_access_order (o : Order) (u : User)
    (hu : u.vendor_id = some o.vendor_id) (h0 : o.vendor_id ≠ 0) :
    check_tenant_access o.entity u = true := by
  simp [check_tenant_access, Order.entity, resolveVendorId, truthy, hu, h0]

/-- C8: on an existing order of the caller's tenant, a CUSTOMER caller
can never update fields or status (forbidden, store unchanged); a STAFF
caller is rejected with the assigned-to-another-staff forbidden error
(store unchanged) when the order is assigned to a different staff
member, and the update goes through when the order is unassigned or
assigned to the caller. -/
theorem C8_staff_update_only_self_or_unassigned :
    ∀ (db : DB) (u : User) (oid : Nat) (o : Order) (upd : OrderUpdate)
      (body : Option String),
      db.orders.find? (fun x => x.id == oid) = some o →
      u.vendor_id = some o.vendor_id → o.vendor_id ≠ 0 →
      ((u.role = UserRole.CUSTOMER →
          update_order db u oid upd
              = (.error (.forbidden "Staff or store owner access required"), db)
            ∧ update_order_status db u oid body
              = (.error (.forbidden "Staff or store owner access required"), db))
        ∧ (u.role = UserRole.STAFF →
            (∀ s, o.assigned_staff_id = some s → s ≠ 0 → s ≠ u.id →
              update_order db u oid upd
                  = (.error (.forbidden "Order is assigned to another staff member"), db)
                ∧ update_order_status db u oid body
                  = (.error (.forbidden "Order is assigned to another staff member"), db))
            ∧ ((o.assigned_staff_id = none ∨ o.assigned_staff_id = some u.id) →
                update_order db u oid upd
                  = (.ok (applyOrderUpdate o upd),
                     { db with orders :=
                        db.orders.map (fun x =>
                          if x.id = oid then applyOrderUpdate o upd else x) })
                ∧ (∀ s st, body = some s → s ≠ "" →
                    OrderStatus.fromString s = some st →
                    update_order_status db u oid body
                      = (.ok { o with status := st },
                         { db with orders :=
                            db.orders.map (fun x =>
                              if x.id = oid then { o with status := st }
                              else x) }))))) := by
  intro db u oid o upd body hfind hu h0
  have hten := check_tenant_access_order o u hu h0
  refine ⟨?_, ?_⟩
  · intro hrole
    have hreqf : requireStaffOk u = false := by simp [requireStaffOk, hrole]
    constructor
    · simp [update_order, hreqf]
    · simp [update_order_status, hreqf]
  · intro hrole
    have hreq : requireStaffOk u = true := by simp [requireStaffOk, hrole]
    constructor
    · intro s ha hs0 hsu
      constructor
      · simp [update_order, hreq, hfind, hten, hrole, ha, truthy, hs0, hsu]
      · simp [update_order_status, hreq, hfind, hten, hrole, ha, truthy, hs0, hsu]
    · intro hun
      rcases hun with h | h
      · constructor
        · simp [update_order, hreq, hfind, hten, h, truthy]
        · intro s st hbody hsne hst
          simp [update_order_status, hreq, hfind, hten, h, truthy, hbody, hsne, hst]
      · constructor
        · simp [update_order, hreq, hfind, hten, h, truthy]
        · intro s st hbody hsne hst
          simp [update_order_status, hreq, hfind, hten, h, truthy, hbody, hsne, hst]

/-- An order of vendor 1 assigned to staff user 6. -/
def sampleOrderAssigned : Order :=
  { id := 1, vendor_id := 1, customer_id := 1, order_number := "ORD-X"
    status := .PENDING, total_amount := 0, shipping_address := "addr"
    notes := none, assigned_staff_id := some 6 }

/-- The sample store holding the assigned order. -/
def sampleDB2 : DB :=
  { sampleDB with orders := [sampleOrderAssigned] }

/-- Witness for C8: staff user 5 cannot update the order assigned to
staff user 6. -/
theorem C8_staff_update_only_self_or_unassigned_witness :
    update_order sampleDB2 sampleStaff 1 ⟨none, none, none, none⟩
      = (.error (.forbidden "Order is assigned to another staff member"), sampleDB2) :=
  (((C8_staff_update_only_self_or_unassigned sampleDB2 sampleStaff 1
      sampleOrderAssigned ⟨none, none, none, none⟩ none rfl rfl
      (by decide)).2 rfl).1 6 rfl (by decide) (by decide)).1

/-- An unassigned order of vendor 1. -/
def sampleOrderUnassigned : Order :=
  { id := 1, vendor_id := 1, customer_id := 1, order_number := "ORD-Y"
    status := .PENDING, total_amount := 0, shipping_address := "addr"
    notes := none, assigned_staff_id := none }

/-- The sample store holding the unassigned order. -/
def sampleDB3 : DB :=
  { sampleDB with orders := [sampleOrderUnassigned] }

/-- Counterexample to C5: a STAFF caller changes an order's
`assigned_staff_id` through the generic order-update endpoint (to a
user id that does not even exist), because `OrderUpdate` exposes the
field and `update_order` applies it without validation. -/
theorem C5_counterexample_staff_assigns :
    sampleStaff.role = UserRole.STAFF
    ∧ (update_order sampleDB3 sampleStaff 1 ⟨none, none, none, some (some 7)⟩).1
        = .ok { sampleOrderUnassigned with assigned_staff_id := some 7 }
    ∧ (update_order sampleDB3 sampleStaff 1 ⟨none, none, none, some (some 7)⟩).2.orders
        = [{ sampleOrderUnassigned with assigned_staff_id := some 7 }] :=
  ⟨rfl, rfl, rfl⟩

lemma applyOrderUpdate_assigned (o : Order) (upd : OrderUpdate) (x : Option Nat)
    (hx : upd.assigned_staff_id = some x) :
    (applyOrderUpdate o upd).assigned_staff_id = x := by
  simp [applyOrderUpdate, hx]

/-- C5 (amended): the dedicated `assign_staff` endpoint is OWNER-only
and validates a truthy target as a same-tenant STAFF user (a falsy
`staff_id` clears the assignment); but `update_order` also accepts
`assigned_staff_id`, so any caller that passes its gates — an OWNER, or
a STAFF caller on an unassigned or self-assigned order — can set the
assignment to an arbitrary value with no validation of the target. -/
theorem C5_assign_staff_amended :
    (∀ (db : DB) (u : User) (oid : Nat) (sid : Option Nat),
      u.role ≠ UserRole.STORE_OWNER →
      assign_staff db u oid sid
        = (.error (.forbidden "Store owner access required"), db))
    ∧ (∀ (db : DB) (u : User) (oid : Nat) (o : Order) (sid : Nat),
        db.orders.find? (fun x => x.id == oid) = some o →
        u.vendor_id = some o.vendor_id → o.vendor_id ≠ 0 →
        u.role = UserRole.STORE_OWNER → sid ≠ 0 →
        (db.users.find? (fun x =>
            x.id == sid && x.vendor_id == u.vendor_id
              && x.role == UserRole.STAFF) = none →
          assign_staff db u oid (some sid)
            = (.error (.notFound "Staff member not found"), db))
        ∧ (∀ w, db.users.find? (fun x =>
              x.id == sid && x.vendor_id == u.vendor_id
                && x.role == UserRole.STAFF) = some w →
            assign_staff db u oid (some sid)
              = (.ok { o with assigned_staff_id := some sid },
                 { db with orders :=
                    db.orders.map (fun x =>
                      if x.id = oid
                      then { o with assigned_staff_id := some sid }
                      else x) })))
    ∧ (∀ (db : DB) (u : User) (oid : Nat) (o : Order),
        db.orders.find? (fun x => x.id == oid) = some o →
        u.vendor_id = some o.vendor_id → o.vendor_id ≠ 0 →
        u.role = UserRole.STORE_OWNER →
        assign_staff db u oid none
          = (.ok { o with assigned_staff_id := none },
             { db with orders :=
                db.orders.map (fun x =>
                  if x.id = oid
                  then { o with assigned_staff_id := none }
                  else x) }))
    ∧ (∀ (db : DB) (u : User) (oid : Nat) (o : Order) (upd : OrderUpdate)
          (x : Option Nat),
        db.orders.find? (fun x => x.id == oid) = some o →
        u.vendor_id = some o.vendor_id → o.vendor_id ≠ 0 →
        requireStaffOk u = true →
        ¬ (u.role = UserRole.STAFF ∧ truthy o.assigned_staff_id
            ∧ o.assigned_staff_id ≠ some u.id) →
        upd.assigned_staff_id = some x →
        (update_order db u oid upd).1 = .ok (applyOrderUpdate o upd)
          ∧ (applyOrderUpdate o upd).assigned_staff_id = x) := by
  refine ⟨?_, ?_, ?_, ?_⟩
  · intro db u oid sid hrole
    simp [assign_staff, hrole]
  · intro db u oid o sid hfind hu h0 hrole hs0
    have hten := check_tenant_access_order o u hu h0
    constructor
    · intro husers
      simp [assign_staff, hrole, hfind, hten, truthy, hs0, husers]
    · intro w husers
      simp [assign_staff, hrole, hfind, hten, truthy, hs0, husers]
  · intro db u oid o hfind hu h0 hrole
    have hten := check_tenant_access_order o u hu h0
    simp [assign_staff, hrole, hfind, hten, truthy]
  · intro db u oid o upd x hfind hu h0 hreq hblock hx
    have hten := check_tenant_access_order o u hu h0
    constructor
    · simp [update_order, hreq, hfind, hten, hblock]
    · exact applyOrderUpdate_assigned o upd x hx

/-- Witness for C5 (amended): a STAFF caller is refused by
`assign_staff`, while the OWNER changes the same order's assignment
through `update_order` with no validation. -/
theorem C5_assign_staff_amended_witness :
    assign_staff sampleDB3 sampleStaff 1 (some 6)
      = (.error (.forbidden "Store owner access required"), sampleDB3)
    ∧ (update_order sampleDB3 sampleOwner 1 ⟨none, none, none, some (some 7)⟩).1
        = .ok (applyOrderUpdate sampleOrderUnassigned ⟨none, none, none, some (some 7)⟩)
    ∧ (applyOrderUpdate sampleOrderUnassigned
        ⟨none, none, none, some (some 7)⟩).assigned_staff_id = some 7 :=
  ⟨C5_assign_staff_amended.1 sampleDB3 sampleStaff 1 (some 6) (by decide),
   (C5_assign_staff_amended.2.2.2 sampleDB3 sampleOwner 1 sampleOrderUnassigned
      ⟨none, none, none, some (some 7)⟩ (some 7) rfl rfl (by decide) (by decide)
      (by decide) rfl).1,
   (C5_assign_staff_amended.2.2.2 sampleDB3 sampleOwner 1 sampleOrderUnassigned
      ⟨none, none, none, some (some 7)⟩ (some 7) rfl rfl (by decide) (by decide)
      (by decide) rfl).2⟩

/-- Counterexample to C9: a STAFF caller deleting a nonexistent product
(id 99) receives the 403 store-owner-required error, not the 404, because
the role checks run before the existence lookup. -/
theorem C9_counterexample_role_before_existence :
    sampleDB.products.find? (fun p => p.id == 99) = none
    ∧ (delete_product sampleDB sampleStaff 99).1
        = .error (.forbidden "Store owner access required")
    ∧ (ApiError.forbidden "Store owner access required").statusCode = 403
    ∧ (ApiError.notFound "Product not found").statusCode = 404 :=
  ⟨rfl, rfl, rfl, rfl⟩

/-- C9 (amended): within each handler the existence lookup precedes the
tenant-access check, so for any caller that reaches the handler a
nonexistent id yields not-found and tenant mismatches yield
access-denied only for existing objects; but role requirements (the
`require_staff` / `require_store_owner` dependencies and
`delete_product`'s in-handler owner check) run before the existence
lookup, so a caller lacking the required role receives forbidden even
for nonexistent ids. -/
theorem C9_not_found_vs_permissions_amended :
    (∀ (db : DB) (u : User) (pid : Nat),
      db.products.find? (fun p => p.id == pid) = none →
      get_product db u pid = (.error (.notFound "Product not found"), db))
    ∧ (∀ (db : DB) (u : User) (oid : Nat),
        db.orders.find? (fun o => o.id == oid) = none →
        get_order db u oid = (.error (.notFound "Order not found"), db))
    ∧ (∀ (db : DB) (u : User) (pid : Nat) (p : Product),
        db.products.find? (fun x => x.id == pid) = some p →
        check_tenant_access p.entity u = false →
        get_product db u pid = (.error (.forbidden "Access denied"), db))
    ∧ (∀ (db : DB) (u : User) (oid : Nat) (upd : OrderUpdate),
        requireStaffOk u = true →
        db.orders.find? (fun o => o.id == oid) = none →
        update_order db u oid upd = (.error (.notFound "Order not found"), db))
    ∧ (∀ (db : DB) (u : User) (oid : Nat) (upd : OrderUpdate),
        requireStaffOk u = false →
        update_order db u oid upd
          = (.error (.forbidden "Staff or store owner access required"), db))
    ∧ (∀ (db : DB) (u : User) (pid : Nat),
        u.role = UserRole.STORE_OWNER →
        db.products.find? (fun p => p.id == pid) = none →
        delete_product db u pid = (.error (.notFound "Product not found"), db))
    ∧ (∀ (db : DB) (u : User) (pid : Nat),
        u.role = UserRole.STAFF →
        delete_product db u pid
          = (.error (.forbidden "Store owner access required"), db)) := by
  refine ⟨?_, ?_, ?_, ?_, ?_, ?_, ?_⟩
  · intro db u pid hfind
    simp [get_product, hfind]
  · intro db u oid hfind
    simp [get_order, hfind]
  · intro db u pid p hfind hten
    simp [get_product, hfind, hten]
  · intro db u oid upd hreq hfind
    simp [update_order, hreq, hfind]
  · intro db u oid upd hreq
    simp [update_order, hreq]
  · intro db u pid hrole hfind
    have hreq : requireStaffOk u = true := by simp [requireStaffOk, hrole]
    simp [delete_product, hreq, hrole, hfind]
  · intro db u pid hrole
    have hreq : requireStaffOk u = true := by simp [requireStaffOk, hrole]
    simp [delete_product, hreq, hrole]

/-- Witness for C9 (amended): on the sample store, the owner deleting a
nonexistent product gets 404, and a get of a nonexistent order gets
404. -/
theorem C9_not_found_vs_permissions_amended_witness :
    delete_product sampleDB sampleOwner 99
      = (.error (.notFound "Product not found"), sampleDB)
    ∧ get_order sampleDB sampleBuyer 42
      = (.error (.notFound "Order not found"), sampleDB) :=
  ⟨(C9_not_found_vs_permissions_amended.2.2.2.2.2.1 sampleDB sampleOwner 99
      rfl (by decide)),
   (C9_not_found_vs_permissions_amended.2.1 sampleDB sampleBuyer 42 (by decide))⟩

/-- The C1 failing input: the buyer orders 2 Widgets (product price
9.99) but the request carries `unit_price` 0.01. -/
def c1result : Except ApiError Order × DB :=
  create_order sampleDB sampleBuyer "ORD-C1" ⟨"addr", none, .PENDING, [⟨1, 2, 1⟩]⟩

/-- C1 evaluated at the failing input: `create_order` records the
request's `unit_price` (0.01) as the item's price snapshot instead of
the referenced product's price (9.99); the subtotal arithmetic
(`subtotal = quantity × unit_price`, total 0.02) is applied to the
client-supplied price. -/
theorem C1_unit_price_taken_from_request_eval :
    c1result.1
      = .ok { id := 1, vendor_id := 1, customer_id := 1, order_number := "ORD-C1"
              status := .PENDING, total_amount := 2, shipping_address := "addr"
              notes := none, assigned_staff_id := none }
    ∧ c1result.2.order_items
      = [{ id := 1, order_id := 1, product_id := 1, quantity := 2
           unit_price := 1, subtotal := 2 }]
    ∧ sampleWidget.price = 999
    ∧ (1 : Int) ≠ 999 := by
  refine ⟨rfl, rfl, rfl, by decide⟩

/-- The C2 failing input: a two-item order — 3 Widgets (stock 5), then
1 Gadget (stock 0). -/
def c2result : Except ApiError Order × DB :=
  create_order sampleDB sampleBuyer "ORD-C2"
    ⟨"addr", none, .PENDING, [⟨1, 3, 999⟩, ⟨2, 1, 500⟩]⟩

/-- C2 evaluated at the failing input: the second item fails on stock
and the Order row is deleted — but the failure path's commit flushes
the session, so the Widget stock decrement for the first item is not
rolled back (5 → 2 instead of restored to 5), and the first item's
pending `OrderItem` insert persists as an orphaned row referencing the
deleted order id 1 (the `autoflush=False` session's delete-orphan
cascade never saw it and SQLite does not enforce the foreign key). -/
theorem C2_no_rollback_of_earlier_decrements_eval :
    c2result.1 = .error (.badRequest "Insufficient stock for Gadget")
    ∧ c2result.2.orders = []
    ∧ c2result.2.order_items
        = [{ id := 1, order_id := 1, product_id := 1, quantity := 3,
             unit_price := 999, subtotal := 2997 }]
    ∧ c2result.2.products.map (fun p => p.stock_quantity) = [2, 0]
    ∧ sampleDB.products.map (fun p => p.stock_quantity) = [5, 0] := by
  refine ⟨rfl, rfl, rfl, rfl, rfl⟩

/-- The database state after the failed C2 order: no orders, an
orphaned item row with `order_id = 1`, Widget stock 2. -/
def c4dbAfterFailure : DB := c2result.2

/-- A later successful one-item order placed on that state. -/
def c4result : Except ApiError Order × DB :=
  create_order c4dbAfterFailure sampleBuyer "ORD-C4B"
    ⟨"addr", none, .PENDING, [⟨1, 1, 999⟩]⟩

/-- C4 evaluated at the failing trace: after the failed two-item order
leaves an orphaned `order_items` row with `order_id = 1`, the orders
table is empty, so SQLite's `max(rowid)+1` allocation hands the next
(successful) order the same id 1.  That order's `total_amount` is 9.99
— the subtotal of its only requested item — but the store now holds two
item rows with `order_id = 1`, whose subtotals sum to 39.96: the
derived-total invariant is violated immediately after a successful
creation. -/
theorem C4_total_drifts_after_orphaned_items_eval :
    c4result.1
      = .ok { id := 1, vendor_id := 1, customer_id := 1, order_number := "ORD-C4B"
              status := .PENDING, total_amount := 999, shipping_address := "addr"
              notes := none, assigned_staff_id := none }
    ∧ c4result.2.orders.map (fun o => (o.id, o.total_amount)) = [(1, 999)]
    ∧ itemsOf c4result.2 1
        = [{ id := 1, order_id := 1, product_id := 1, quantity := 3,
             unit_price := 999, subtotal := 2997 },
           { id := 2, order_id := 1, product_id := 1, quantity := 1,
             unit_price := 999, subtotal := 999 }]
    ∧ ((itemsOf c4result.2 1).map (fun i => i.subtotal)).sum = 3996
    ∧ (999 : Int) ≠ 3996
    ∧ ¬ totalInv c4result.2 := by
  refine ⟨rfl, rfl, rfl, rfl, by decide, ?_⟩
  intro h
  have h1 := h { id := 1, vendor_id := 1, customer_id := 1, order_number := "ORD-C4B"
                 status := .PENDING, total_amount := 999, shipping_address := "addr"
                 notes := none, assigned_staff_id := none }
    (by rw [show c4result.2.orders
          = [{ id := 1, vendor_id := 1, customer_id := 1, order_number := "ORD-C4B"
               status := .PENDING, total_amount := 999, shipping_address := "addr"
               notes := none, assigned_staff_id := none }] from rfl]
        exact List.mem_singleton_self _)
  revert h1
  decide

end Shop
